import Mathlib

/-!
# Reconciliation core of the YTsaurus Kubernetes operator

A shallow embedding of the decision functions of three components:

* `execNode.doSync`, `execNode.Status`, `execNode.Sync` (pkg/components/exec_node.go),
* `Microservice.Sync` (pkg/components/microservice.go),
* `Spyt.doSync`, `Spyt.Status`, `Spyt.Sync` (pkg/components/spyt.go).

Every call a decision function makes on a collaborator is recorded, in program order,
in a call list, so that "which collaborator was invoked, and when" is a statement about
a value.  What a collaborator answers is a field of the observed state the function is
run in.  A Go `error` is an `Option Err`, `nil` being `none`.
-/

namespace YtOperator

/-- A Go error value; the `nil` error is `none : Option Err`. -/
abbrev Err := String

/-! ## Status vocabulary -/

/-- Modelled from the spec: the declaration of `SyncStatus` is not among the source files.
The spec gives the closed set of outcomes `Ready`, `Pending`, `Blocked`, `Updating`,
`NeedLocalUpdate`; the source uses exactly these five constants. -/
inductive SyncStatus where
  | Blocked
  | NeedLocalUpdate
  | Pending
  | Ready
  | Updating
  deriving DecidableEq, Repr

/-- Modelled from the spec: the declaration of `ComponentStatus` is not among the source
files.  The spec gives it as the pair of a `SyncStatus` and an optional human-readable
reason. -/
structure ComponentStatus where
  SyncStatus : SyncStatus
  Reason : Option String
  deriving DecidableEq, Repr

/-- Modelled from the spec: `SimpleStatus` is not among the source files.  The spec writes
its result as the bare outcome, without a reason. -/
def SimpleStatus (status : SyncStatus) : ComponentStatus :=
  ⟨status, none⟩

/-- Modelled from the spec: `WaitingStatus` is not among the source files.  The spec writes
its result as the outcome applied to the reason, `Blocked("pods")`, and says of `Blocked`
and `Updating` that the reason names the dependency or the sub-phase. -/
def WaitingStatus (status : SyncStatus) (event : String) : ComponentStatus :=
  ⟨status, some event⟩

/-! ## Cluster resource -/

/-- The coarse lifecycle phase of the cluster.  The source files name `ClusterStateRunning`
and `ClusterStateUpdating`; every other phase is `other`. -/
inductive ClusterState where
  | Running
  | Updating
  | other (tag : Nat)
  deriving DecidableEq, Repr

/-- The sub-phase of an update.  The source files name `UpdateStateWaitingForPodsRemoval`;
every other sub-phase is `other`. -/
inductive UpdateState where
  | WaitingForPodsRemoval
  | other (tag : Nat)
  deriving DecidableEq, Repr

/-! ## Exec node -/

/-- The part of `corev1.Container` a sidecar specification is parsed into. -/
structure Container where
  name : String
  image : String
  deriving DecidableEq, Repr

/-- The calls `execNode.doSync` makes on its collaborators. -/
inductive ExecCall where
  /-- The call `n.ytsaurus.GetClusterState()`. -/
  | getClusterState
  /-- The call `n.server.NeedUpdate()`. -/
  | serverNeedUpdate
  /-- The call `n.ytsaurus.GetUpdateState()`. -/
  | getUpdateState
  /-- The call `n.ytsaurus.GetLocalUpdatingComponents()`. -/
  | getLocalUpdatingComponents
  /-- The call `n.GetName()`. -/
  | getName
  /-- The call `n.removePods(ctx, dry)`. -/
  | removePods (dry : Bool)
  /-- The call `n.master.Status(ctx)`. -/
  | masterStatus
  /-- The call `n.master.GetName()`. -/
  | masterGetName
  /-- The call `n.server.NeedSync()`. -/
  | serverNeedSync
  /-- The call `n.server.BuildStatefulSet()`. -/
  | serverBuildStatefulSet
  /-- The call `yaml.Unmarshal([]byte(sidecarSpec), &sidecar)`. -/
  | unmarshal (sidecarSpec : String)
  /-- The append of a parsed sidecar to the containers of the built stateful set. -/
  | appendContainer (sidecar : Container)
  /-- The call `n.server.Sync(ctx)`. -/
  | serverSync
  /-- The call `n.server.ArePodsReady(ctx)`. -/
  | serverArePodsReady
  deriving DecidableEq, Repr

/-- An exec node together with the state it observes in one reconcile tick: its fields
`master` and `sidecars`, and what each collaborator answers when asked. -/
structure execNode where
  /-- What `n.GetName()` returns. -/
  name : String
  /-- What `n.ytsaurus.GetClusterState()` returns. -/
  clusterState : ClusterState
  /-- What `n.ytsaurus.GetUpdateState()` returns. -/
  updateState : UpdateState
  /-- What `n.ytsaurus.GetLocalUpdatingComponents()` returns; the `nil` slice is `none`. -/
  localUpdatingComponents : Option (List String)
  /-- What `n.server.NeedUpdate()` returns. -/
  needUpdate : Bool
  /-- What `n.master.Status(ctx)` returns. -/
  masterStatus : ComponentStatus
  /-- What `n.master.GetName()` returns. -/
  masterName : String
  /-- What `n.server.NeedSync()` returns. -/
  needSync : Bool
  /-- What `n.server.ArePodsReady(ctx)` returns. -/
  arePodsReady : Bool
  /-- The field `n.sidecars`. -/
  sidecars : List String
  /-- What `yaml.Unmarshal` makes of a sidecar string: a container or an error. -/
  unmarshal : String → Except Err Container
  /-- The error `n.server.Sync(ctx)` returns. -/
  serverSyncErr : Option Err
  /-- The error deleting the replicas returns in a wet `removePods`. -/
  removePodsErr : Option Err

/-- What one run of a decision function yields: the decision, the error returned next to
it, and the collaborator calls made, in program order. -/
structure Outcome where
  status : ComponentStatus
  err : Option Err
  calls : List ExecCall

/-- The outcome of a run that first makes the calls `pre` and then continues as `o`. -/
def Outcome.after (pre : List ExecCall) (o : Outcome) : Outcome :=
  { o with calls := pre ++ o.calls }

/-- The function `slices.Contains` of k8s.io/utils/strings/slices: linear search. -/
def slicesContains (s : List String) (v : String) : Bool :=
  s.any (fun x => x == v)

/-- Modelled from the spec: `ServerComponentBase.removePods` is not among the source files.
By the spec the dry pass skips every step that would create, update or delete, and a
dry pass does not fail; the wet pass deletes the running replicas of the managed workload
and hands back the error of that deletion. -/
def execNode.removePods (n : execNode) (dry : Bool) : Option Err :=
  if dry then none else n.removePodsErr

/-- Lines 93 to 100 of exec_node.go: the loop over `n.sidecars`, leaving at the first
string that does not parse, followed by `n.server.Sync(ctx)` and the return of line 102
when every string parsed. -/
def execNode.sidecarLoop (n : execNode) : List String → Outcome
  | [] => ⟨WaitingStatus SyncStatus.Pending "components", n.serverSyncErr, [ExecCall.serverSync]⟩
  | sidecarSpec :: rest =>
    match n.unmarshal sidecarSpec with
    | Except.error err =>
      ⟨WaitingStatus SyncStatus.Blocked "invalid sidecar", some err, [ExecCall.unmarshal sidecarSpec]⟩
    | Except.ok sidecar =>
      Outcome.after [ExecCall.unmarshal sidecarSpec, ExecCall.appendContainer sidecar]
        (execNode.sidecarLoop n rest)

/-- The function `execNode.doSync` of exec_node.go, lines 70 to 110.  The three `let`s are
the three stretches of the body, bound last stretch first: `from86` is line 86 to the end,
`removal` is the return of line 81, `from77` is line 77 to the end. -/
def execNode.doSync (n : execNode) (dry : Bool) : Outcome :=
  let from86 : Outcome :=
    Outcome.after [ExecCall.masterStatus] <|
      if ¬ (n.masterStatus.SyncStatus = SyncStatus.Ready) then
        ⟨WaitingStatus SyncStatus.Blocked n.masterName, none, [ExecCall.masterGetName]⟩
      else
        Outcome.after [ExecCall.serverNeedSync] <|
          if n.needSync then
            if !dry then
              Outcome.after [ExecCall.serverBuildStatefulSet] (n.sidecarLoop n.sidecars)
            else
              ⟨WaitingStatus SyncStatus.Pending "components", none, []⟩
          else
            Outcome.after [ExecCall.serverArePodsReady] <|
              if !n.arePodsReady then
                ⟨WaitingStatus SyncStatus.Blocked "pods", none, []⟩
              else
                ⟨SimpleStatus SyncStatus.Ready, none, []⟩
  let removal : Outcome :=
    ⟨WaitingStatus SyncStatus.Updating "pods removal", n.removePods dry, [ExecCall.removePods dry]⟩
  let from77 : Outcome :=
    Outcome.after [ExecCall.getClusterState] <|
      if n.clusterState = ClusterState.Updating then
        Outcome.after [ExecCall.getUpdateState] <|
          if n.updateState = UpdateState.WaitingForPodsRemoval then
            Outcome.after [ExecCall.getLocalUpdatingComponents] <|
              match n.localUpdatingComponents with
              | none => removal
              | some updatingComponents =>
                Outcome.after [ExecCall.getName] <|
                  if slicesContains updatingComponents n.name then removal else from86
          else from86
      else from86
  Outcome.after [ExecCall.getClusterState] <|
    if n.clusterState = ClusterState.Running then
      Outcome.after [ExecCall.serverNeedUpdate] <|
        if n.needUpdate then
          ⟨SimpleStatus SyncStatus.NeedLocalUpdate, none, []⟩
        else from77
    else from77

/-- The function `execNode.Status`, lines 112 to 119: the dry pass; an error of the dry
pass makes it panic, which is `Except.error` here. -/
def execNode.Status (n : execNode) : Except Err ComponentStatus :=
  match (n.doSync true).err with
  | some err => Except.error err
  | none => Except.ok (n.doSync true).status

/-- The function `execNode.Sync`, lines 121 to 124: the wet pass, its decision dropped. -/
def execNode.Sync (n : execNode) : Option Err :=
  (n.doSync false).err

/-- The condition of line 73, under which `doSync` returns `NeedLocalUpdate`. -/
def execNode.selfUpdateGate (n : execNode) : Bool :=
  decide (n.clusterState = ClusterState.Running) && n.needUpdate

/-- The conditions of lines 77 to 80 together, under which `doSync` returns through
`removePods`. -/
def execNode.podsRemovalGate (n : execNode) : Bool :=
  decide (n.clusterState = ClusterState.Updating) &&
    (decide (n.updateState = UpdateState.WaitingForPodsRemoval) &&
      (match n.localUpdatingComponents with
        | none => true
        | some updatingComponents => slicesContains updatingComponents n.name))

/-- The calls the spec counts as mutating: `removePods` of the wet pass and `server.Sync`. -/
def ExecCall.mutating : ExecCall → Bool
  | ExecCall.removePods dry => !dry
  | ExecCall.serverSync => true
  | _ => false

/-- Whether `execNode.Sync`, run in the observed state, performs a mutating call. -/
def execNode.syncMutates (n : execNode) : Bool :=
  (n.doSync false).calls.any ExecCall.mutating

/-- The sidecar strings handed to `yaml.Unmarshal` in a run, in order. -/
def unmarshalled : List ExecCall → List String
  | [] => []
  | ExecCall.unmarshal sidecarSpec :: rest => sidecarSpec :: unmarshalled rest
  | _ :: rest => unmarshalled rest

/-- Whether a sidecar string parses as a container specification. -/
def execNode.parses (n : execNode) (sidecarSpec : String) : Bool :=
  match n.unmarshal sidecarSpec with
  | Except.ok _ => true
  | Except.error _ => false

/-- The error of the first sidecar string, in list order, that does not parse. -/
def execNode.firstParseError (n : execNode) : List String → Option Err
  | [] => none
  | sidecarSpec :: rest =>
    match n.unmarshal sidecarSpec with
    | Except.error err => some err
    | Except.ok _ => execNode.firstParseError n rest

/-- The spec's normal reconciliation, written from its decision order, rules 3 to 6:
dependency gating (`Blocked` naming the upstream component), the apply step (in the wet
pass build and apply, a malformed sidecar being `Blocked("invalid sidecar")`, then
`Pending("components")` with the error of the apply next to it), the readiness check
(`Blocked("pods")`), and `Ready` otherwise. -/
def specNormalReconciliation (n : execNode) (dry : Bool) : ComponentStatus × Option Err :=
  if n.masterStatus.SyncStatus ≠ SyncStatus.Ready then
    (WaitingStatus SyncStatus.Blocked n.masterName, none)
  else if n.needSync then
    if dry then (WaitingStatus SyncStatus.Pending "components", none)
    else
      match n.firstParseError n.sidecars with
      | some err => (WaitingStatus SyncStatus.Blocked "invalid sidecar", some err)
      | none => (WaitingStatus SyncStatus.Pending "components", n.serverSyncErr)
  else if !n.arePodsReady then (WaitingStatus SyncStatus.Blocked "pods", none)
  else (SimpleStatus SyncStatus.Ready, none)

/-! ## Microservice -/

/-- The three resources a `Microservice` owns: its fields `configHelper`, `deployment`
and `service`. -/
inductive Artifact where
  | configHelper
  | deployment
  | service
  deriving DecidableEq, Repr

/-- The calls `Microservice.Sync` makes. -/
inductive MicroserviceCall where
  /-- The call `Build()` on an owned resource, made by a `Build...` method of the
  microservice when nothing is memoized. -/
  | build (a : Artifact)
  /-- The call `resources.Sync(ctx, list)`. -/
  | resourcesSync (list : List Artifact)
  deriving DecidableEq, Repr

/-- The memo fields of a `Microservice`: whether `builtConfig`, `builtDeployment` and
`builtService` are set (non-nil). -/
structure Microservice where
  builtConfig : Bool
  builtDeployment : Bool
  builtService : Bool
  deriving DecidableEq, Repr

/-- The method `Microservice.BuildConfig`, lines 98 to 103. -/
def Microservice.BuildConfig (m : Microservice) : Microservice × List MicroserviceCall :=
  if m.builtConfig = false then
    ({ m with builtConfig := true }, [MicroserviceCall.build Artifact.configHelper])
  else (m, [])

/-- The method `Microservice.BuildDeployment`, lines 77 to 89. -/
def Microservice.BuildDeployment (m : Microservice) : Microservice × List MicroserviceCall :=
  if m.builtDeployment = false then
    ({ m with builtDeployment := true }, [MicroserviceCall.build Artifact.deployment])
  else (m, [])

/-- The method `Microservice.BuildService`, lines 91 to 96. -/
def Microservice.BuildService (m : Microservice) : Microservice × List MicroserviceCall :=
  if m.builtService = false then
    ({ m with builtService := true }, [MicroserviceCall.build Artifact.service])
  else (m, [])

/-- The list of line 110 to 114, handed to `resources.Sync`. -/
def Microservice.syncList : List Artifact :=
  [Artifact.deployment, Artifact.configHelper, Artifact.service]

/-- The method `Microservice.Sync`, lines 105 to 115: the microservice after the three
builds, and the calls made, the last one being `resources.Sync` on the list. -/
def Microservice.Sync (m : Microservice) : Microservice × List MicroserviceCall :=
  let r1 := m.BuildConfig
  let r2 := r1.1.BuildDeployment
  let r3 := r2.1.BuildService
  (r3.1, r1.2 ++ r2.2 ++ r3.2 ++ [MicroserviceCall.resourcesSync Microservice.syncList])

/-- The list `Microservice.Sync` hands to the apply step `resources.Sync`. -/
def Microservice.handedToApply (m : Microservice) : List Artifact :=
  m.Sync.2.flatMap fun c =>
    match c with
    | MicroserviceCall.resourcesSync list => list
    | _ => []

/-- Whether `a` stands before `b` in a list that holds both. -/
def precedes (a b : Artifact) (l : List Artifact) : Bool :=
  decide (a ∈ l) && decide (b ∈ l) && decide (l.indexOf a < l.indexOf b)

/-! ## Spyt -/

/-- The two init jobs of a `Spyt`: its fields `initUser` and `initEnvironment`. -/
inductive InitJobField where
  | initUser
  | initEnvironment
  deriving DecidableEq, Repr

/-- The observed state of an init job: the decision its readiness gate reaches, and the
error its mutating calls return in a wet pass. -/
structure InitJob where
  status : SyncStatus
  applyErr : Option Err
  deriving DecidableEq, Repr

/-- Modelled from the spec: `InitJob.Sync` is not among the source files.  By the spec an
init job is a one-shot task with its own readiness gate, run as every decision function
is: the dry pass takes the same branch as the wet pass, skips every step that would
create, update or delete, and does not fail; an error is what a mutating call returns,
next to the decision. -/
def InitJob.Sync (j : InitJob) (dry : Bool) : SyncStatus × Option Err :=
  (j.status, if dry then none else j.applyErr)

/-- Modelled from the spec: `ytconfig.RandString` is not among the source files.  By the
spec it generates a random token of the fixed length asked for; `rand` is the source of
randomness, its value at `i` being the character drawn at position `i`. -/
def RandString (rand : Nat → Char) (n : Nat) : String :=
  String.mk ((List.range n).map rand)

/-- The calls `Spyt.doSync` makes on its collaborators. -/
inductive SpytCall where
  /-- The call `s.secret.NeedSync(key, value)`. -/
  | secretNeedSync (key value : String)
  /-- The call `s.secret.Build()`. -/
  | secretBuild
  /-- The call `ytconfig.RandString(n)`. -/
  | randString (n : Nat)
  /-- The assignment of the one-entry map from `key` to `token` to `secretSpec.StringData`. -/
  | setStringData (key token : String)
  /-- The call `s.secret.Sync(ctx)`. -/
  | secretSync
  /-- The call `s.secret.GetValue(key)`. -/
  | secretGetValue (key : String)
  /-- The call `createUserCommand(userName, password, token, isSuperuser)`. -/
  | createUserCommand (userName password token : String) (isSuperuser : Bool)
  /-- The call `initJobWithNativeDriverPrologue()`. -/
  | initJobWithNativeDriverPrologue
  /-- The call `SetInitScript(script)` on an init job. -/
  | setInitScript (job : InitJobField) (script : String)
  /-- The call `Build()` on an init job. -/
  | jobBuild (job : InitJobField)
  /-- The call `s.cfgen.GetHTTPProxiesAddress(role)`. -/
  | getHTTPProxiesAddress (role : String)
  /-- The assignment of the environment variables, name and value, to the first
  container of the built job. -/
  | setContainerEnv (env : List (String × String))
  /-- The call `Sync(ctx, dry)` on an init job. -/
  | jobSync (job : InitJobField) (dry : Bool)
  deriving DecidableEq, Repr

/-- A Spyt component together with the state it observes in one reconcile tick. -/
structure Spyt where
  /-- The field `s.ytsaurus.Status.State`. -/
  state : ClusterState
  /-- The constant `consts.TokenSecretKey`. -/
  TokenSecretKey : String
  /-- The constant `consts.DefaultHTTPProxyRole`. -/
  DefaultHTTPProxyRole : String
  /-- What `s.secret.NeedSync(key, value)` returns. -/
  secretNeedSync : String → String → Bool
  /-- What `s.secret.GetValue(key)` returns: the value and whether the key is there. -/
  secretGetValue : String → String × Bool
  /-- The error `s.secret.Sync(ctx)` returns. -/
  secretSyncErr : Option Err
  /-- The source of randomness of `ytconfig.RandString`. -/
  rand : Nat → Char
  /-- What `createUserCommand` returns. -/
  createUserCommand : String → String → String → Bool → List String
  /-- What `initJobWithNativeDriverPrologue()` returns. -/
  initJobWithNativeDriverPrologue : String
  /-- What `s.cfgen.GetHTTPProxiesAddress(role)` returns. -/
  getHTTPProxiesAddress : String → String
  /-- The field `s.initUser`. -/
  initUser : InitJob
  /-- The field `s.initEnvironment`. -/
  initEnvironment : InitJob

/-- What one run of `Spyt.doSync` yields: the decision, the error returned next to it, and
the collaborator calls made, in program order. -/
structure SpytOutcome where
  status : SyncStatus
  err : Option Err
  calls : List SpytCall

/-- The method `Spyt.createInitUserScript`, lines 73 to 82, with the calls it makes. -/
def Spyt.createInitUserScript (s : Spyt) : String × List SpytCall :=
  let token := (s.secretGetValue s.TokenSecretKey).1
  let commands := s.createUserCommand "spyt_releaser" "" token true
  let script := [s.initJobWithNativeDriverPrologue] ++ commands
  ("\n".intercalate script,
    [SpytCall.secretGetValue s.TokenSecretKey,
     SpytCall.createUserCommand "spyt_releaser" "" token true,
     SpytCall.initJobWithNativeDriverPrologue])

/-- The method `Spyt.createInitScript`, lines 84 to 90. -/
def Spyt.createInitScript (_s : Spyt) : String :=
  "\n".intercalate ["/entrypoint.sh"]

/-- The function `Spyt.doSync` of spyt.go, lines 92 to 140. -/
def Spyt.doSync (s : Spyt) (dry : Bool) : SpytOutcome :=
  if s.state ≠ ClusterState.Running then
    ⟨SyncStatus.Blocked, none, []⟩
  else
    let c100 := [SpytCall.secretNeedSync s.TokenSecretKey ""]
    if s.secretNeedSync s.TokenSecretKey "" then
      if !dry then
        let token := RandString s.rand 30
        ⟨SyncStatus.Pending, s.secretSyncErr,
          c100 ++ [SpytCall.secretBuild, SpytCall.randString 30,
            SpytCall.setStringData s.TokenSecretKey token, SpytCall.secretSync]⟩
      else
        ⟨SyncStatus.Pending, none, c100⟩
    else
      let c111 :=
        if !dry then
          s.createInitUserScript.2 ++
            [SpytCall.setInitScript InitJobField.initUser s.createInitUserScript.1]
        else []
      let r113 := s.initUser.Sync dry
      let c113 := c100 ++ c111 ++ [SpytCall.jobSync InitJobField.initUser dry]
      if r113.1 ≠ SyncStatus.Ready then
        ⟨r113.1, r113.2, c113⟩
      else
        let c118 :=
          if !dry then
            let token := (s.secretGetValue s.TokenSecretKey).1
            [SpytCall.setInitScript InitJobField.initEnvironment s.createInitScript,
             SpytCall.jobBuild InitJobField.initEnvironment,
             SpytCall.secretGetValue s.TokenSecretKey,
             SpytCall.getHTTPProxiesAddress s.DefaultHTTPProxyRole,
             SpytCall.setContainerEnv
               [("YT_PROXY", s.getHTTPProxiesAddress s.DefaultHTTPProxyRole),
                ("YT_TOKEN", token),
                ("EXTRA_PUBLISH_CLUSTER_OPTIONS", "--ignore-existing")]]
          else []
        let r139 := s.initEnvironment.Sync dry
        ⟨r139.1, r139.2, c113 ++ c118 ++ [SpytCall.jobSync InitJobField.initEnvironment dry]⟩

/-- The method `Spyt.Status`, lines 150 to 157: the dry pass; an error of the dry pass
makes it panic, which is `Except.error` here. -/
def Spyt.Status (s : Spyt) : Except Err SyncStatus :=
  match (s.doSync true).err with
  | some err => Except.error err
  | none => Except.ok (s.doSync true).status

/-- The method `Spyt.Sync`, lines 159 to 162: the wet pass, its decision dropped. -/
def Spyt.Sync (s : Spyt) : Option Err :=
  (s.doSync false).err

/-- The init job a call is made on, if it is made on one. -/
def SpytCall.job : SpytCall → Option InitJobField
  | SpytCall.setInitScript job _ => some job
  | SpytCall.jobBuild job => some job
  | SpytCall.jobSync job _ => some job
  | _ => none

/-! ## Call lists of the exec node, by stretch -/

/-- The calls `doSync` makes on its way to line 86 when neither gate applies. -/
def execNode.gateCalls (n : execNode) : List ExecCall :=
  [ExecCall.getClusterState] ++
  (if n.clusterState = ClusterState.Running then [ExecCall.serverNeedUpdate] else []) ++
  [ExecCall.getClusterState] ++
  (if n.clusterState = ClusterState.Updating then
    [ExecCall.getUpdateState] ++
    (if n.updateState = UpdateState.WaitingForPodsRemoval then
      [ExecCall.getLocalUpdatingComponents, ExecCall.getName] else [])
   else [])

/-- The calls `doSync` makes from line 86 on. -/
def execNode.reconcileCalls (n : execNode) (dry : Bool) : List ExecCall :=
  [ExecCall.masterStatus] ++
  (if n.masterStatus.SyncStatus ≠ SyncStatus.Ready then [ExecCall.masterGetName]
   else [ExecCall.serverNeedSync] ++
    (if n.needSync then
      (if dry then [] else [ExecCall.serverBuildStatefulSet] ++ (n.sidecarLoop n.sidecars).calls)
     else [ExecCall.serverArePodsReady]))

/-! ## Examples -/

deriving instance DecidableEq for Except

/-- A stand-in for `yaml.Unmarshal` on the examples.  It reads the two container
specifications the examples use, each a YAML mapping with the keys `name` and `image`,
and rejects every other string, the malformed string "not: valid: yaml: :" of the
spec's scenario among them.  The examples hand it these three strings only. -/
def exampleUnmarshal (sidecarSpec : String) : Except Err Container :=
  if sidecarSpec = "name: logger\nimage: busybox" then Except.ok ⟨"logger", "busybox"⟩
  else if sidecarSpec = "name: metrics\nimage: prom/node-exporter" then
    Except.ok ⟨"metrics", "prom/node-exporter"⟩
  else Except.error "yaml: mapping values are not allowed in this context"

/-- An exec node of the examples: a running cluster, a ready master, ready pods, nothing
to update or to sync, no sidecars. -/
def exampleNode : execNode :=
  { name := "exec-node-a", clusterState := ClusterState.Running,
    updateState := UpdateState.other 0, localUpdatingComponents := none, needUpdate := false,
    masterStatus := SimpleStatus SyncStatus.Ready, masterName := "master", needSync := false,
    arePodsReady := true, sidecars := [], unmarshal := exampleUnmarshal,
    serverSyncErr := none, removePodsErr := none }

/-- The example node, its image out of date while the cluster runs and its master blocked. -/
def nodeNeedingUpdate : execNode :=
  { exampleNode with
    needUpdate := true
    masterStatus := WaitingStatus SyncStatus.Blocked "pods" }

/-- The example node in a cluster-wide update waiting for pods removal, its master blocked. -/
def nodeInPodsRemoval : execNode :=
  { exampleNode with
    clusterState := ClusterState.Updating
    updateState := UpdateState.WaitingForPodsRemoval
    masterStatus := WaitingStatus SyncStatus.Blocked "pods" }

/-- The example node with a blocked master, outside both gates. -/
def nodeBehindMaster : execNode :=
  { exampleNode with masterStatus := WaitingStatus SyncStatus.Blocked "pods" }

/-- The spec's scenario node "exec-node-a": a local update scoped to "exec-node-a" waits
for pods removal; the node has work to apply. -/
def nodeA : execNode :=
  { exampleNode with
    name := "exec-node-a"
    clusterState := ClusterState.Updating
    updateState := UpdateState.WaitingForPodsRemoval
    localUpdatingComponents := some ["exec-node-a"]
    needSync := true }

/-- The spec's scenario node "exec-node-b", in the same cluster as `nodeA`. -/
def nodeB : execNode :=
  { nodeA with name := "exec-node-b" }

/-- The example node with the malformed sidecar string of the spec's scenario between two
well-formed ones, and work to apply. -/
def nodeWithBadSidecar : execNode :=
  { exampleNode with
    needSync := true
    sidecars :=
      ["name: logger\nimage: busybox", "not: valid: yaml: :",
        "name: metrics\nimage: prom/node-exporter"] }

/-- The node with the malformed sidecar string, in a cluster-wide update waiting for pods
removal. -/
def nodeWithBadSidecarInRemoval : execNode :=
  { nodeWithBadSidecar with
    clusterState := ClusterState.Updating
    updateState := UpdateState.WaitingForPodsRemoval }

/-- A Spyt component of the examples: a running cluster, a secret without its token key,
both init jobs pending. -/
def exampleSpyt : Spyt :=
  { state := ClusterState.Running, TokenSecretKey := "YT_TOKEN",
    DefaultHTTPProxyRole := "default",
    secretNeedSync := fun _ _ => true, secretGetValue := fun _ => ("", false),
    secretSyncErr := none, rand := fun _ => 'x',
    createUserCommand := fun userName _ _ _ => ["create user " ++ userName],
    initJobWithNativeDriverPrologue := "set -e",
    getHTTPProxiesAddress := fun role => "http-proxies-" ++ role,
    initUser := ⟨SyncStatus.Pending, none⟩, initEnvironment := ⟨SyncStatus.Pending, none⟩ }

/-- The example Spyt component one tick later: the token is in the secret, the first init
job is blocked on its run and fails to record it. -/
def spytWithToken : Spyt :=
  { exampleSpyt with
    secretNeedSync := fun _ _ => false
    secretGetValue := fun _ => ("xxxxxxxxxxxxxxxxxxxxxxxxxxxxxx", true)
    initUser := ⟨SyncStatus.Blocked, some "conflict"⟩ }

/-- The example Spyt component once the first init job is `Ready`. -/
def spytWithUser : Spyt :=
  { spytWithToken with initUser := ⟨SyncStatus.Ready, none⟩ }

/-- A microservice with nothing built yet. -/
def freshMicroservice : Microservice :=
  ⟨false, false, false⟩

/-! ## Lemmas on the embedding -/

theorem Outcome.after_status (pre : List ExecCall) (o : Outcome) :
    (Outcome.after pre o).status = o.status := rfl

theorem Outcome.after_err (pre : List ExecCall) (o : Outcome) :
    (Outcome.after pre o).err = o.err := rfl

theorem Outcome.after_calls (pre : List ExecCall) (o : Outcome) :
    (Outcome.after pre o).calls = pre ++ o.calls := rfl

theorem execNode.parses_eq_true_iff (n : execNode) (s : String) :
    n.parses s = true ↔ ∃ c, n.unmarshal s = Except.ok c := by
  unfold execNode.parses
  cases h : n.unmarshal s <;> simp

theorem execNode.parses_eq_false_iff (n : execNode) (s : String) :
    n.parses s = false ↔ ∃ e, n.unmarshal s = Except.error e := by
  unfold execNode.parses
  cases h : n.unmarshal s <;> simp

theorem execNode.sidecarLoop_any_mutating (n : execNode) (l : List String) :
    (n.sidecarLoop l).calls.any ExecCall.mutating = l.all n.parses := by
  induction l with
  | nil => simp [execNode.sidecarLoop, ExecCall.mutating]
  | cons s rest ih =>
    unfold execNode.sidecarLoop
    cases h : n.unmarshal s with
    | error e => simp [ExecCall.mutating, execNode.parses, h]
    | ok c => simp [Outcome.after, ExecCall.mutating, execNode.parses, h, ih]

theorem execNode.sidecarLoop_serverSync_mem (n : execNode) (l : List String) :
    ExecCall.serverSync ∈ (n.sidecarLoop l).calls ↔ ∀ s ∈ l, n.parses s = true := by
  induction l with
  | nil => simp [execNode.sidecarLoop]
  | cons s rest ih =>
    unfold execNode.sidecarLoop
    cases h : n.unmarshal s with
    | error e => simp [execNode.parses, h]
    | ok c => simp [Outcome.after, execNode.parses, h, ih]

theorem execNode.sidecarLoop_removePods_not_mem (n : execNode) (l : List String) (d : Bool) :
    ExecCall.removePods d ∉ (n.sidecarLoop l).calls := by
  induction l with
  | nil => simp [execNode.sidecarLoop]
  | cons s rest ih =>
    unfold execNode.sidecarLoop
    cases h : n.unmarshal s with
    | error e => simp
    | ok c => simp [Outcome.after, ih]

theorem execNode.sidecarLoop_status_err (n : execNode) (l : List String) :
    ((n.sidecarLoop l).status, (n.sidecarLoop l).err) =
      match n.firstParseError l with
      | some err => (WaitingStatus SyncStatus.Blocked "invalid sidecar", some err)
      | none => (WaitingStatus SyncStatus.Pending "components", n.serverSyncErr) := by
  induction l with
  | nil => simp [execNode.sidecarLoop, execNode.firstParseError]
  | cons s rest ih =>
    unfold execNode.sidecarLoop execNode.firstParseError
    cases h : n.unmarshal s with
    | error e => simp
    | ok c => simpa [Outcome.after] using ih

theorem execNode.sidecarLoop_first_invalid (n : execNode) (pre rest : List String)
    (s : String) (e : Err) (hpre : ∀ x ∈ pre, n.parses x = true)
    (hs : n.unmarshal s = Except.error e) :
    (n.sidecarLoop (pre ++ s :: rest)).status = WaitingStatus SyncStatus.Blocked "invalid sidecar" ∧
    (n.sidecarLoop (pre ++ s :: rest)).err = some e ∧
    unmarshalled (n.sidecarLoop (pre ++ s :: rest)).calls = pre ++ [s] := by
  induction pre with
  | nil => simp [execNode.sidecarLoop, hs, unmarshalled]
  | cons x xs ih =>
    have hx := hpre x (by simp)
    obtain ⟨c, hc⟩ := (n.parses_eq_true_iff x).1 hx
    have ih2 := ih (fun y hy => hpre y (by simp [hy]))
    simp only [List.cons_append, execNode.sidecarLoop, hc, Outcome.after]
    simp [unmarshalled, ih2]

theorem execNode.exists_first_invalid (n : execNode) (l : List String)
    (h : ∃ s ∈ l, n.parses s = false) :
    ∃ pre s e rest, l = pre ++ s :: rest ∧ (∀ x ∈ pre, n.parses x = true) ∧
      n.unmarshal s = Except.error e := by
  induction l with
  | nil => simp at h
  | cons x xs ih =>
    by_cases hx : n.parses x = true
    · have h2 : ∃ s ∈ xs, n.parses s = false := by
        obtain ⟨s, hs, hf⟩ := h
        rcases List.mem_cons.1 hs with rfl | hs2
        · simp [hx] at hf
        · exact ⟨s, hs2, hf⟩
      obtain ⟨pre, s, e, rest, hl, hp, he⟩ := ih h2
      refine ⟨x :: pre, s, e, rest, by simp [hl], ?_, he⟩
      intro y hy
      rcases List.mem_cons.1 hy with rfl | hy2
      · exact hx
      · exact hp y hy2
    · have hx2 : n.parses x = false := by simpa using hx
      obtain ⟨e, he⟩ := (n.parses_eq_false_iff x).1 hx2
      exact ⟨[], x, e, xs, by simp, by simp, he⟩

theorem execNode.doSync_selfUpdate (n : execNode) (dry : Bool)
    (h : n.selfUpdateGate = true) :
    n.doSync dry = ⟨SimpleStatus SyncStatus.NeedLocalUpdate, none,
      [ExecCall.getClusterState, ExecCall.serverNeedUpdate]⟩ := by
  simp only [execNode.selfUpdateGate, Bool.and_eq_true, decide_eq_true_eq] at h
  simp [execNode.doSync, Outcome.after, h.1, h.2]

theorem execNode.doSync_podsRemoval (n : execNode) (dry : Bool)
    (h : n.podsRemovalGate = true) :
    (n.doSync dry).status = WaitingStatus SyncStatus.Updating "pods removal" ∧
    (n.doSync dry).err = n.removePods dry ∧
    (n.doSync dry).calls =
      [ExecCall.getClusterState, ExecCall.getClusterState, ExecCall.getUpdateState,
        ExecCall.getLocalUpdatingComponents] ++
      (if n.localUpdatingComponents = none then [] else [ExecCall.getName]) ++
      [ExecCall.removePods dry] := by
  simp only [execNode.podsRemovalGate, Bool.and_eq_true, decide_eq_true_eq] at h
  obtain ⟨hc, hu, hl⟩ := h
  cases hluc : n.localUpdatingComponents with
  | none => simp [execNode.doSync, Outcome.after, hc, hu, hluc]
  | some l =>
    rw [hluc] at hl
    simp only at hl
    simp [execNode.doSync, Outcome.after, hc, hu, hluc, hl]

theorem execNode.doSync_no_gate (n : execNode) (dry : Bool)
    (h1 : n.selfUpdateGate = false) (h2 : n.podsRemovalGate = false) :
    ((n.doSync dry).status, (n.doSync dry).err) = specNormalReconciliation n dry ∧
    (n.doSync dry).calls = n.gateCalls ++ n.reconcileCalls dry := by
  have key := n.sidecarLoop_status_err n.sidecars
  rcases n with ⟨name, cs, us, luc, nu, ms, mn, ns, apr, sc, um, sse, rpe⟩
  simp only [execNode.selfUpdateGate, execNode.podsRemovalGate] at h1 h2
  simp only [Prod.mk.injEq] at key
  cases cs <;> cases us <;> cases luc <;> cases nu <;> cases ns <;> cases apr <;> cases dry <;>
    by_cases hm : ms.SyncStatus = SyncStatus.Ready <;>
    simp_all [execNode.doSync, Outcome.after, specNormalReconciliation, execNode.gateCalls,
      execNode.reconcileCalls]

theorem slicesContains_iff (l : List String) (v : String) :
    slicesContains l v = true ↔ v ∈ l := by
  simp [slicesContains]

theorem execNode.Status_of_err_none (n : execNode) (h : (n.doSync true).err = none) :
    n.Status = Except.ok (n.doSync true).status := by
  unfold execNode.Status
  rw [h]

theorem execNode.gates_cases (n : execNode) :
    n.selfUpdateGate = true ∨ n.podsRemovalGate = true ∨
      (n.selfUpdateGate = false ∧ n.podsRemovalGate = false) := by
  cases n.selfUpdateGate <;> cases n.podsRemovalGate <;> simp

theorem execNode.gates_exclusive (n : execNode) (h : n.podsRemovalGate = true) :
    n.selfUpdateGate = false := by
  simp only [execNode.podsRemovalGate, Bool.and_eq_true, decide_eq_true_eq] at h
  simp [execNode.selfUpdateGate, h.1]

theorem execNode.doSync_dry_err (n : execNode) : (n.doSync true).err = none := by
  rcases n.gates_cases with h | h | ⟨h1, h2⟩
  · rw [n.doSync_selfUpdate true h]
  · rw [(n.doSync_podsRemoval true h).2.1]; rfl
  · have := congrArg Prod.snd (n.doSync_no_gate true h1 h2).1
    simp only at this
    rw [this]
    unfold specNormalReconciliation
    split_ifs <;> simp_all

theorem execNode.gateCalls_any_mutating (n : execNode) :
    n.gateCalls.any ExecCall.mutating = false := by
  unfold execNode.gateCalls
  split_ifs <;> simp [ExecCall.mutating]

theorem execNode.syncMutates_iff (n : execNode) :
    n.syncMutates = true ↔
      n.podsRemovalGate = true ∨
        (n.selfUpdateGate = false ∧ n.masterStatus.SyncStatus = SyncStatus.Ready ∧
          n.needSync = true ∧ ∀ s ∈ n.sidecars, n.parses s = true) := by
  unfold execNode.syncMutates
  rcases n.gates_cases with h | h | ⟨h1, h2⟩
  · rw [n.doSync_selfUpdate false h]
    have h3 : n.podsRemovalGate = false := by
      cases hp : n.podsRemovalGate
      · rfl
      · rw [n.gates_exclusive hp] at h; exact absurd h (by decide)
    simp [ExecCall.mutating, h, h3]
  · rw [(n.doSync_podsRemoval false h).2.2]
    simp [ExecCall.mutating, h]
  · rw [(n.doSync_no_gate false h1 h2).2, List.any_append, n.gateCalls_any_mutating]
    have key : (n.sidecarLoop n.sidecars).calls.any ExecCall.mutating = true ↔
        ∀ s ∈ n.sidecars, n.parses s = true := by
      rw [n.sidecarLoop_any_mutating, List.all_eq_true]
    unfold execNode.reconcileCalls
    by_cases hm : n.masterStatus.SyncStatus = SyncStatus.Ready <;>
      cases hs : n.needSync <;>
      simp [ExecCall.mutating, h1, h2, hm, hs]
    simpa [List.any_eq_true] using key

theorem execNode.status_ready_iff (n : execNode) :
    (n.doSync true).status.SyncStatus = SyncStatus.Ready ↔
      n.selfUpdateGate = false ∧ n.podsRemovalGate = false ∧
        n.masterStatus.SyncStatus = SyncStatus.Ready ∧ n.needSync = false ∧
        n.arePodsReady = true := by
  rcases n.gates_cases with h | h | ⟨h1, h2⟩
  · rw [n.doSync_selfUpdate true h]
    simp [SimpleStatus, h]
  · rw [(n.doSync_podsRemoval true h).1]
    simp [WaitingStatus, h]
  · have := congrArg Prod.fst (n.doSync_no_gate true h1 h2).1
    simp only at this
    rw [this]
    unfold specNormalReconciliation
    by_cases hm : n.masterStatus.SyncStatus = SyncStatus.Ready <;>
      cases hs : n.needSync <;> cases hp : n.arePodsReady <;>
      simp [h1, h2, hm, hs, hp, WaitingStatus, SimpleStatus]

theorem execNode.gateCalls_mem (n : execNode) (c : ExecCall) (h : c ∈ n.gateCalls) :
    c = ExecCall.getClusterState ∨ c = ExecCall.serverNeedUpdate ∨
      c = ExecCall.getUpdateState ∨ c = ExecCall.getLocalUpdatingComponents ∨
      c = ExecCall.getName := by
  unfold execNode.gateCalls at h
  split_ifs at h <;> simp at h <;> tauto

theorem execNode.reconcileCalls_removePods (n : execNode) (dry d : Bool) :
    ExecCall.removePods d ∉ n.reconcileCalls dry := by
  have := n.sidecarLoop_removePods_not_mem n.sidecars d
  unfold execNode.reconcileCalls
  split_ifs <;> simp [this]

theorem execNode.reconcileCalls_dry_mem (n : execNode) (c : ExecCall)
    (h : c ∈ n.reconcileCalls true) :
    c = ExecCall.masterStatus ∨ c = ExecCall.masterGetName ∨ c = ExecCall.serverNeedSync ∨
      c = ExecCall.serverArePodsReady := by
  unfold execNode.reconcileCalls at h
  split_ifs at h <;> simp at h <;> tauto

theorem execNode.serverSync_mem_iff (n : execNode) (dry : Bool) :
    ExecCall.serverSync ∈ (n.doSync dry).calls ↔
      dry = false ∧ n.selfUpdateGate = false ∧ n.podsRemovalGate = false ∧
        n.masterStatus.SyncStatus = SyncStatus.Ready ∧ n.needSync = true ∧
        ∀ s ∈ n.sidecars, n.parses s = true := by
  rcases n.gates_cases with h | h | ⟨h1, h2⟩
  · rw [n.doSync_selfUpdate dry h]
    simp [h]
  · rw [(n.doSync_podsRemoval dry h).2.2]
    have : ExecCall.serverSync ∉ (if n.localUpdatingComponents = none then []
        else [ExecCall.getName]) := by split_ifs <;> simp
    simp [h, this]
  · rw [(n.doSync_no_gate dry h1 h2).2, List.mem_append]
    have hg : ExecCall.serverSync ∉ n.gateCalls := fun hc => by
      have := n.gateCalls_mem _ hc
      simp at this
    have key := n.sidecarLoop_serverSync_mem n.sidecars
    unfold execNode.reconcileCalls
    by_cases hm : n.masterStatus.SyncStatus = SyncStatus.Ready <;>
      cases hs : n.needSync <;> cases dry <;>
      simp [hg, h1, h2, hm, hs, key]

theorem RandString_length (rand : Nat → Char) (n : Nat) : (RandString rand n).length = n := by
  simp [RandString, String.length]

theorem Spyt.status_of_dry_err_none (s : Spyt) (h : (s.doSync true).err = none) :
    s.Status = Except.ok (s.doSync true).status := by
  unfold Spyt.Status
  rw [h]

theorem Spyt.dry_err_none (s : Spyt) : (s.doSync true).err = none := by
  by_cases hr : s.state = ClusterState.Running <;>
    cases hn : s.secretNeedSync s.TokenSecretKey "" <;>
    by_cases hu : s.initUser.status = SyncStatus.Ready <;>
    simp [Spyt.doSync, InitJob.Sync, hr, hn, hu]

/-! ## Dependency ordering -/

/-- Claim C1, as amended.  When the master's status is not `Ready`, the status of an exec
node is `NeedLocalUpdate` if the self-update gate of line 73 applies, `Updating` with
reason "pods removal" if the pods-removal gate of lines 77 to 80 applies, and only
otherwise `Blocked` with the master's name as reason. -/
theorem execNode.status_when_master_not_ready (n : execNode)
    (hm : n.masterStatus.SyncStatus ≠ SyncStatus.Ready) :
    n.Status = Except.ok
      (if n.selfUpdateGate then SimpleStatus SyncStatus.NeedLocalUpdate
       else if n.podsRemovalGate then WaitingStatus SyncStatus.Updating "pods removal"
       else WaitingStatus SyncStatus.Blocked n.masterName) := by
  rw [n.Status_of_err_none n.doSync_dry_err]
  rcases n.gates_cases with h | h | ⟨h1, h2⟩
  · rw [n.doSync_selfUpdate true h, h]; rfl
  · rw [(n.doSync_podsRemoval true h).1, n.gates_exclusive h, h]; rfl
  · have := congrArg Prod.fst (n.doSync_no_gate true h1 h2).1
    simp only at this
    rw [this, h1, h2]
    simp [specNormalReconciliation, hm]

/-- Witness of `execNode.status_when_master_not_ready`: an exec node behind a blocked
master, outside both gates, is `Blocked` with reason "master". -/
theorem execNode.status_when_master_not_ready_witness :
    nodeBehindMaster.masterStatus.SyncStatus ≠ SyncStatus.Ready ∧
    nodeBehindMaster.Status = Except.ok (WaitingStatus SyncStatus.Blocked "master") :=
  ⟨by decide, execNode.status_when_master_not_ready nodeBehindMaster (by decide)⟩

/-- Claim C1, as stated, fails.  With a master that is not `Ready`, an exec node whose
image is out of date in a running cluster reports `NeedLocalUpdate`, and an exec node in
the pods-removal sub-phase of a cluster-wide update reports `Updating`; neither is
`Blocked` with the master's name. -/
theorem execNode.dependency_ordering_counterexample :
    (nodeNeedingUpdate.masterStatus.SyncStatus ≠ SyncStatus.Ready ∧
      nodeNeedingUpdate.Status = Except.ok (SimpleStatus SyncStatus.NeedLocalUpdate) ∧
      nodeNeedingUpdate.Status ≠
        Except.ok (WaitingStatus SyncStatus.Blocked nodeNeedingUpdate.masterName)) ∧
    (nodeInPodsRemoval.masterStatus.SyncStatus ≠ SyncStatus.Ready ∧
      nodeInPodsRemoval.Status =
        Except.ok (WaitingStatus SyncStatus.Updating "pods removal") ∧
      nodeInPodsRemoval.Status ≠
        Except.ok (WaitingStatus SyncStatus.Blocked nodeInPodsRemoval.masterName)) := by
  decide

/-! ## Dry and wet pass -/

/-- Claim C2, as amended.  If `Status` returns `Ready`, then `Sync` run in the same observed
state performs no mutating call.  The converse does not hold: `Sync` performs a mutating
call exactly when the pods-removal gate applies, or when the self-update gate does not
apply, the master is `Ready`, `NeedSync` holds and every sidecar string parses. -/
theorem execNode.ready_only_if_sync_idle (n : execNode) :
    (∀ st, n.Status = Except.ok st → st.SyncStatus = SyncStatus.Ready →
      n.syncMutates = false) ∧
    (n.syncMutates = true ↔
      n.podsRemovalGate = true ∨
        (n.selfUpdateGate = false ∧ n.masterStatus.SyncStatus = SyncStatus.Ready ∧
          n.needSync = true ∧ ∀ s ∈ n.sidecars, n.parses s = true)) := by
  refine ⟨?_, n.syncMutates_iff⟩
  intro st hst hr
  rw [n.Status_of_err_none n.doSync_dry_err] at hst
  cases hst
  obtain ⟨_, h2, _, hs, _⟩ := n.status_ready_iff.1 hr
  cases hmut : n.syncMutates
  · rfl
  · rcases n.syncMutates_iff.1 hmut with h | ⟨_, _, h, _⟩
    · rw [h2] at h; exact absurd h (by decide)
    · rw [hs] at h; exact absurd h (by decide)

/-- Witness of `execNode.ready_only_if_sync_idle`: the example node is `Ready` and its
`Sync` performs no mutating call. -/
theorem execNode.ready_only_if_sync_idle_witness :
    exampleNode.Status = Except.ok (SimpleStatus SyncStatus.Ready) ∧
    exampleNode.syncMutates = false :=
  ⟨by decide, (execNode.ready_only_if_sync_idle exampleNode).1 _
    (by decide : exampleNode.Status = Except.ok (SimpleStatus SyncStatus.Ready)) rfl⟩

/-- Claim C2, as stated, fails.  For an exec node whose image is out of date in a running
cluster, `Sync` performs no mutating call, yet `Status` returns `NeedLocalUpdate`, not
`Ready`: the equivalence does not hold from right to left. -/
theorem execNode.dry_wet_consistency_counterexample :
    nodeNeedingUpdate.syncMutates = false ∧
    (nodeNeedingUpdate.doSync false).calls =
      [ExecCall.getClusterState, ExecCall.serverNeedUpdate] ∧
    nodeNeedingUpdate.Status = Except.ok (SimpleStatus SyncStatus.NeedLocalUpdate) ∧
    ¬ (nodeNeedingUpdate.Status = Except.ok (SimpleStatus SyncStatus.Ready) ↔
        nodeNeedingUpdate.syncMutates = false) := by
  decide

/-! ## Update-phase scoping -/

/-- Claim C3.  With the cluster `Updating` and the update waiting for pods removal:
(a) if `LocalUpdatingComponents` is nil or holds the name of the exec node, `doSync`
invokes `removePods` with its own `dry` flag and returns `Updating` with reason
"pods removal" and the error of `removePods`, having asked neither the master for its
status nor the server for `NeedSync`; (b) if `LocalUpdatingComponents` is a non-nil list
without the name (the empty list included), `removePods` is not invoked and decision
and error are those of the spec's normal reconciliation: dependency gating, apply step,
readiness check. -/
theorem execNode.update_phase_scoping (n : execNode) (dry : Bool)
    (hc : n.clusterState = ClusterState.Updating)
    (hu : n.updateState = UpdateState.WaitingForPodsRemoval) :
    ((n.localUpdatingComponents = none ∨
        ∃ l, n.localUpdatingComponents = some l ∧ n.name ∈ l) →
      (n.doSync dry).status = WaitingStatus SyncStatus.Updating "pods removal" ∧
      (n.doSync dry).err = n.removePods dry ∧
      ExecCall.removePods dry ∈ (n.doSync dry).calls ∧
      ExecCall.masterStatus ∉ (n.doSync dry).calls ∧
      ExecCall.serverNeedSync ∉ (n.doSync dry).calls) ∧
    (∀ l, n.localUpdatingComponents = some l → n.name ∉ l →
      (∀ d, ExecCall.removePods d ∉ (n.doSync dry).calls) ∧
      ((n.doSync dry).status, (n.doSync dry).err) = specNormalReconciliation n dry) := by
  constructor
  · intro h
    have hg : n.podsRemovalGate = true := by
      rcases h with h | ⟨l, hl, hmem⟩
      · simp [execNode.podsRemovalGate, hc, hu, h]
      · simp [execNode.podsRemovalGate, hc, hu, hl, slicesContains_iff, hmem]
    obtain ⟨h1, h2, h3⟩ := n.doSync_podsRemoval dry hg
    refine ⟨h1, h2, ?_, ?_, ?_⟩
    · rw [h3]; simp
    · rw [h3]; split_ifs <;> simp
    · rw [h3]; split_ifs <;> simp
  · intro l hl hmem
    have h1 : n.selfUpdateGate = false := by simp [execNode.selfUpdateGate, hc]
    have h2 : n.podsRemovalGate = false := by
      have : slicesContains l n.name = false := by
        cases hs : slicesContains l n.name
        · rfl
        · exact absurd ((slicesContains_iff l n.name).1 hs) hmem
      simp [execNode.podsRemovalGate, hl, this]
    obtain ⟨h3, h4⟩ := n.doSync_no_gate dry h1 h2
    refine ⟨?_, h3⟩
    intro d hd
    rw [h4, List.mem_append] at hd
    rcases hd with hd | hd
    · have := n.gateCalls_mem _ hd
      simp at this
    · exact n.reconcileCalls_removePods dry d hd

/-- Witness of `execNode.update_phase_scoping`, the spec's scenario: with
`LocalUpdatingComponents` holding only "exec-node-a", the wet pass of "exec-node-a"
invokes `removePods` and reports `Updating` with reason "pods removal", while the wet
pass of "exec-node-b" never invokes `removePods` and goes through normal
reconciliation. -/
theorem execNode.update_phase_scoping_witness :
    (nodeA.clusterState = ClusterState.Updating ∧
      nodeA.updateState = UpdateState.WaitingForPodsRemoval ∧
      (∃ l, nodeA.localUpdatingComponents = some l ∧ nodeA.name ∈ l) ∧
      (nodeA.doSync false).status = WaitingStatus SyncStatus.Updating "pods removal" ∧
      ExecCall.removePods false ∈ (nodeA.doSync false).calls) ∧
    (nodeB.clusterState = ClusterState.Updating ∧
      nodeB.updateState = UpdateState.WaitingForPodsRemoval ∧
      nodeB.localUpdatingComponents = some ["exec-node-a"] ∧
      nodeB.name ∉ ["exec-node-a"] ∧
      (∀ d, ExecCall.removePods d ∉ (nodeB.doSync false).calls) ∧
      ((nodeB.doSync false).status, (nodeB.doSync false).err) =
        specNormalReconciliation nodeB false) :=
  have ha := (execNode.update_phase_scoping nodeA false rfl rfl).1
    (Or.inr ⟨["exec-node-a"], rfl, by decide⟩)
  have hb := (execNode.update_phase_scoping nodeB false rfl rfl).2
    ["exec-node-a"] rfl (by decide)
  ⟨⟨rfl, rfl, ⟨["exec-node-a"], rfl, by decide⟩, ha.1, ha.2.2.1⟩,
    ⟨rfl, rfl, rfl, by decide, hb.1, hb.2⟩⟩

/-! ## Self-update signal -/

/-- Claim C4.  Whenever the cluster is `Running` and the server reports `NeedUpdate`, both
`Status` and `Sync` decide `NeedLocalUpdate` with a nil error, whatever the rest of the
observed state is, and the only calls `Sync` makes are `GetClusterState` and `NeedUpdate`:
neither `removePods` nor `server.Sync` is invoked. -/
theorem execNode.self_update_precedence (n : execNode)
    (hr : n.clusterState = ClusterState.Running) (hu : n.needUpdate = true) :
    n.Status = Except.ok (SimpleStatus SyncStatus.NeedLocalUpdate) ∧
    (n.doSync false).status = SimpleStatus SyncStatus.NeedLocalUpdate ∧
    n.Sync = none ∧
    (n.doSync false).calls = [ExecCall.getClusterState, ExecCall.serverNeedUpdate] ∧
    (∀ d, ExecCall.removePods d ∉ (n.doSync false).calls) ∧
    ExecCall.serverSync ∉ (n.doSync false).calls ∧
    n.syncMutates = false := by
  have h : n.selfUpdateGate = true := by simp [execNode.selfUpdateGate, hr, hu]
  have hd := n.doSync_selfUpdate true h
  have hw := n.doSync_selfUpdate false h
  refine ⟨?_, ?_, ?_, ?_, ?_, ?_, ?_⟩
  · rw [n.Status_of_err_none n.doSync_dry_err, hd]
  · rw [hw]
  · unfold execNode.Sync; rw [hw]
  · rw [hw]
  · intro d; rw [hw]; simp
  · rw [hw]; simp
  · unfold execNode.syncMutates; rw [hw]; simp [ExecCall.mutating]

/-- Witness of `execNode.self_update_precedence`: the node whose image is out of date in a
running cluster, its master blocked. -/
theorem execNode.self_update_precedence_witness :
    nodeNeedingUpdate.clusterState = ClusterState.Running ∧
    nodeNeedingUpdate.needUpdate = true ∧
    nodeNeedingUpdate.Status = Except.ok (SimpleStatus SyncStatus.NeedLocalUpdate) ∧
    nodeNeedingUpdate.Sync = none ∧
    nodeNeedingUpdate.syncMutates = false :=
  have h := execNode.self_update_precedence nodeNeedingUpdate rfl rfl
  ⟨rfl, rfl, h.1, h.2.2.1, h.2.2.2.2.2.2⟩

/-! ## Order of the apply list of a microservice -/

/-- Claim C5, as amended.  `Microservice.Sync` builds the config artifact, the deployment
and the service in that order, each only if it is not memoized, and then hands to the
apply step the list deployment, config helper, service: in that list the deployment
precedes the config helper and the config helper precedes the service. -/
theorem Microservice.sync_order (m : Microservice) :
    m.Sync.2 =
      (if m.builtConfig = false then [MicroserviceCall.build Artifact.configHelper] else []) ++
      (if m.builtDeployment = false then [MicroserviceCall.build Artifact.deployment]
        else []) ++
      (if m.builtService = false then [MicroserviceCall.build Artifact.service] else []) ++
      [MicroserviceCall.resourcesSync
        [Artifact.deployment, Artifact.configHelper, Artifact.service]] ∧
    m.handedToApply = [Artifact.deployment, Artifact.configHelper, Artifact.service] ∧
    precedes Artifact.deployment Artifact.configHelper m.handedToApply = true ∧
    precedes Artifact.configHelper Artifact.service m.handedToApply = true := by
  rcases m with ⟨c, d, s⟩
  cases c <;> cases d <;> cases s <;> decide

/-- Claim C5, as stated, fails.  In the list a fresh microservice hands to the apply step
the deployment comes first and the config helper second: the config helper does not
precede the deployment. -/
theorem Microservice.sync_order_counterexample :
    freshMicroservice.handedToApply =
      [Artifact.deployment, Artifact.configHelper, Artifact.service] ∧
    precedes Artifact.configHelper Artifact.deployment freshMicroservice.handedToApply =
      false := by
  decide

/-! ## Malformed sidecar and status -/

/-- Claim C6, as amended.  For an exec node with a sidecar string that does not parse,
outside both gates and with a `Ready` master, `Status` does not look at the sidecars: it
returns `Pending` with reason "components" when `NeedSync` holds, else `Blocked` with
reason "pods" when the pods are not ready, else `Ready`.  The decision `Blocked` with
reason "invalid sidecar" is computed by the wet pass only, when `NeedSync` holds, and
`Sync` drops it and returns the parse error of a sidecar string of the list. -/
theorem execNode.malformed_sidecar_status (n : execNode)
    (h1 : n.selfUpdateGate = false) (h2 : n.podsRemovalGate = false)
    (hm : n.masterStatus.SyncStatus = SyncStatus.Ready)
    (hbad : ∃ s ∈ n.sidecars, n.parses s = false) :
    n.Status = Except.ok
      (if n.needSync then WaitingStatus SyncStatus.Pending "components"
       else if n.arePodsReady then SimpleStatus SyncStatus.Ready
       else WaitingStatus SyncStatus.Blocked "pods") ∧
    (n.needSync = true →
      (n.doSync false).status = WaitingStatus SyncStatus.Blocked "invalid sidecar" ∧
      ∃ s ∈ n.sidecars, ∃ e, n.unmarshal s = Except.error e ∧ n.Sync = some e) := by
  constructor
  · rw [n.Status_of_err_none n.doSync_dry_err]
    have := congrArg Prod.fst (n.doSync_no_gate true h1 h2).1
    simp only at this
    rw [this]
    unfold specNormalReconciliation
    cases hs : n.needSync <;> cases hp : n.arePodsReady <;> simp [hm]
  · intro hs
    obtain ⟨pre, s, e, rest, hl, hp, he⟩ := n.exists_first_invalid n.sidecars hbad
    have hloop := n.sidecarLoop_first_invalid pre rest s e hp he
    rw [← hl] at hloop
    have h3 := (n.doSync_no_gate false h1 h2).1
    have h4 := n.sidecarLoop_status_err n.sidecars
    rw [hloop.1, hloop.2.1] at h4
    unfold specNormalReconciliation at h3
    simp only [hm, hs, ne_eq, not_true_eq_false, if_false, if_true, Bool.false_eq_true] at h3
    rw [← h4] at h3
    simp only [Prod.mk.injEq] at h3
    exact ⟨h3.1, s, by rw [hl]; simp, e, he, by unfold execNode.Sync; exact h3.2⟩

/-- Witness of `execNode.malformed_sidecar_status`: the node with the malformed sidecar
string of the spec's scenario reports `Pending` with reason "components". -/
theorem execNode.malformed_sidecar_status_witness :
    nodeWithBadSidecar.selfUpdateGate = false ∧ nodeWithBadSidecar.podsRemovalGate = false ∧
    nodeWithBadSidecar.masterStatus.SyncStatus = SyncStatus.Ready ∧
    (∃ s ∈ nodeWithBadSidecar.sidecars, nodeWithBadSidecar.parses s = false) ∧
    nodeWithBadSidecar.Status = Except.ok (WaitingStatus SyncStatus.Pending "components") :=
  ⟨rfl, rfl, rfl, ⟨"not: valid: yaml: :", by decide, by decide⟩,
    (execNode.malformed_sidecar_status nodeWithBadSidecar rfl rfl rfl
      ⟨"not: valid: yaml: :", by decide, by decide⟩).1⟩

/-- Claim C6, as stated, fails.  The node with the malformed sidecar string
"not: valid: yaml: :" is outside both gates and its master is `Ready`, yet `Status`
returns `Pending` with reason "components", not `Blocked` with reason "invalid sidecar";
with nothing to sync it returns `Ready`. -/
theorem execNode.malformed_sidecar_counterexample :
    "not: valid: yaml: :" ∈ nodeWithBadSidecar.sidecars ∧
    nodeWithBadSidecar.parses "not: valid: yaml: :" = false ∧
    nodeWithBadSidecar.selfUpdateGate = false ∧ nodeWithBadSidecar.podsRemovalGate = false ∧
    nodeWithBadSidecar.masterStatus.SyncStatus = SyncStatus.Ready ∧
    nodeWithBadSidecar.Status = Except.ok (WaitingStatus SyncStatus.Pending "components") ∧
    nodeWithBadSidecar.Status ≠
      Except.ok (WaitingStatus SyncStatus.Blocked "invalid sidecar") ∧
    execNode.Status { nodeWithBadSidecar with needSync := false } =
      Except.ok (SimpleStatus SyncStatus.Ready) := by
  decide

/-! ## Malformed sidecar and the apply -/

/-- Claim C7, as amended.  If some string of the sidecar list does not parse as a container
specification, then in no observed state does `doSync`, dry or wet, invoke `server.Sync`
itself, and `Sync` makes a mutating call exactly when the pods-removal gate applies: there
the wet pass invokes `removePods` and returns `Updating` with reason "pods removal"
without looking at the sidecars, and outside that gate `Sync` changes nothing.  Moreover
there is a first unparseable string in list order, all strings before it parsing, such
that whenever the wet pass reaches the apply step (no gate applies, the master is `Ready`,
`NeedSync` holds) its decision is `Blocked` with reason "invalid sidecar", the error it
returns is the parse error of that string, and the strings it handed to the parser are
exactly those up to and including it. -/
theorem execNode.malformed_sidecar_blocks_apply (n : execNode)
    (hbad : ∃ s ∈ n.sidecars, n.parses s = false) :
    (∀ dry, ExecCall.serverSync ∉ (n.doSync dry).calls) ∧
    n.syncMutates = n.podsRemovalGate ∧
    (n.podsRemovalGate = false → n.syncMutates = false) ∧
    (n.podsRemovalGate = true →
      ExecCall.removePods false ∈ (n.doSync false).calls ∧
      (n.doSync false).status = WaitingStatus SyncStatus.Updating "pods removal" ∧
      unmarshalled (n.doSync false).calls = []) ∧
    ∃ pre s e rest, n.sidecars = pre ++ s :: rest ∧ (∀ x ∈ pre, n.parses x = true) ∧
      n.unmarshal s = Except.error e ∧
      (n.selfUpdateGate = false → n.podsRemovalGate = false →
        n.masterStatus.SyncStatus = SyncStatus.Ready → n.needSync = true →
        (n.doSync false).status = WaitingStatus SyncStatus.Blocked "invalid sidecar" ∧
        (n.doSync false).err = some e ∧ n.Sync = some e ∧
        unmarshalled (n.doSync false).calls = pre ++ [s]) := by
  have hidle : n.podsRemovalGate = false → n.syncMutates = false := by
    intro hg
    cases hmut : n.syncMutates
    · rfl
    · rcases n.syncMutates_iff.1 hmut with h | ⟨_, _, _, hall⟩
      · rw [hg] at h; exact absurd h (by decide)
      · obtain ⟨s, hs, hf⟩ := hbad
        rw [hall s hs] at hf
        exact absurd hf (by decide)
  refine ⟨?_, ?_, hidle, ?_, ?_⟩
  · intro dry hmem
    obtain ⟨_, _, _, _, _, hall⟩ := (n.serverSync_mem_iff dry).1 hmem
    obtain ⟨s, hs, hf⟩ := hbad
    rw [hall s hs] at hf
    exact absurd hf (by decide)
  · cases hg : n.podsRemovalGate
    · exact hidle hg
    · exact n.syncMutates_iff.2 (Or.inl hg)
  · intro hg
    obtain ⟨h1, _, h3⟩ := n.doSync_podsRemoval false hg
    refine ⟨by rw [h3]; simp, h1, ?_⟩
    rw [h3]
    split_ifs <;> simp [unmarshalled]
  · obtain ⟨pre, s, e, rest, hl, hp, he⟩ := n.exists_first_invalid n.sidecars hbad
    refine ⟨pre, s, e, rest, hl, hp, he, ?_⟩
    intro h1 h2 hm hs
    have hloop := n.sidecarLoop_first_invalid pre rest s e hp he
    rw [← hl] at hloop
    obtain ⟨h3, h5⟩ := n.doSync_no_gate false h1 h2
    have h4 := n.sidecarLoop_status_err n.sidecars
    rw [hloop.1, hloop.2.1] at h4
    unfold specNormalReconciliation at h3
    simp only [hm, hs, ne_eq, not_true_eq_false, if_false, if_true, Bool.false_eq_true] at h3
    rw [← h4] at h3
    simp only [Prod.mk.injEq] at h3
    refine ⟨h3.1, h3.2, by unfold execNode.Sync; exact h3.2, ?_⟩
    rw [h5]
    unfold execNode.gateCalls execNode.reconcileCalls
    simp only [hm, hs, ne_eq, not_true_eq_false, if_false, if_true, Bool.false_eq_true]
    split_ifs <;> simp [unmarshalled, hloop.2.2]

/-- Witness of `execNode.malformed_sidecar_blocks_apply`: the node whose second sidecar
string is the malformed one of the spec's scenario, the first being a well-formed
container specification. -/
theorem execNode.malformed_sidecar_blocks_apply_witness :
    (∃ s ∈ nodeWithBadSidecar.sidecars, nodeWithBadSidecar.parses s = false) ∧
    (∀ dry, ExecCall.serverSync ∉ (nodeWithBadSidecar.doSync dry).calls) ∧
    nodeWithBadSidecar.syncMutates = false ∧
    (nodeWithBadSidecar.doSync false).status =
      WaitingStatus SyncStatus.Blocked "invalid sidecar" ∧
    unmarshalled (nodeWithBadSidecar.doSync false).calls =
      ["name: logger\nimage: busybox", "not: valid: yaml: :"] :=
  ⟨⟨"not: valid: yaml: :", by decide, by decide⟩,
    (execNode.malformed_sidecar_blocks_apply nodeWithBadSidecar
      ⟨"not: valid: yaml: :", by decide, by decide⟩).1,
    (execNode.malformed_sidecar_blocks_apply nodeWithBadSidecar
      ⟨"not: valid: yaml: :", by decide, by decide⟩).2.2.1 rfl,
    by decide, by decide⟩

/-- Claim C7, as stated, fails.  The node with the malformed sidecar string, in a
cluster-wide update waiting for pods removal, is inside the pods-removal gate: its `Sync`
invokes the wet `removePods`, a mutating call on the replicas of the stateful set, and
returns `Updating` with reason "pods removal"; so it is not true in every observed state
that a malformed sidecar leaves the replica group unchanged.  `server.Sync` itself is
not among the calls. -/
theorem execNode.malformed_sidecar_in_pods_removal_counterexample :
    "not: valid: yaml: :" ∈ nodeWithBadSidecarInRemoval.sidecars ∧
    nodeWithBadSidecarInRemoval.parses "not: valid: yaml: :" = false ∧
    (nodeWithBadSidecarInRemoval.doSync false).calls =
      [ExecCall.getClusterState, ExecCall.getClusterState, ExecCall.getUpdateState,
        ExecCall.getLocalUpdatingComponents, ExecCall.removePods false] ∧
    nodeWithBadSidecarInRemoval.syncMutates = true ∧
    (nodeWithBadSidecarInRemoval.doSync false).status =
      WaitingStatus SyncStatus.Updating "pods removal" ∧
    ¬ (nodeWithBadSidecarInRemoval.syncMutates = false) := by
  decide

/-! ## Token step of Spyt -/

/-- Claim C8.  For a Spyt component with the cluster `Running` whose secret lacks the
token key, the wet pass asks `NeedSync`, builds the secret, asks `RandString` for 30
characters, sets the token key to the string it got, which has length 30, applies the
secret, and decides `Pending` with the error of that apply; it makes no call on either
init job.  The dry pass decides `Pending` with a nil error and makes no call but
`NeedSync`, so `Status` is `Pending`. -/
theorem Spyt.token_step (s : Spyt) (hr : s.state = ClusterState.Running)
    (hn : s.secretNeedSync s.TokenSecretKey "" = true) :
    (s.doSync false).status = SyncStatus.Pending ∧
    (s.doSync false).err = s.secretSyncErr ∧
    (s.doSync false).calls =
      [SpytCall.secretNeedSync s.TokenSecretKey "", SpytCall.secretBuild,
        SpytCall.randString 30,
        SpytCall.setStringData s.TokenSecretKey (RandString s.rand 30),
        SpytCall.secretSync] ∧
    (RandString s.rand 30).length = 30 ∧
    (∀ c ∈ (s.doSync false).calls, c.job = none) ∧
    (s.doSync true).status = SyncStatus.Pending ∧
    (s.doSync true).err = none ∧
    (s.doSync true).calls = [SpytCall.secretNeedSync s.TokenSecretKey ""] ∧
    s.Status = Except.ok SyncStatus.Pending := by
  have hw : s.doSync false = ⟨SyncStatus.Pending, s.secretSyncErr,
      [SpytCall.secretNeedSync s.TokenSecretKey "", SpytCall.secretBuild,
        SpytCall.randString 30,
        SpytCall.setStringData s.TokenSecretKey (RandString s.rand 30),
        SpytCall.secretSync]⟩ := by
    simp [Spyt.doSync, hr, hn]
  have hd : s.doSync true = ⟨SyncStatus.Pending, none,
      [SpytCall.secretNeedSync s.TokenSecretKey ""]⟩ := by
    simp [Spyt.doSync, hr, hn]
  refine ⟨by rw [hw], by rw [hw], by rw [hw], RandString_length _ _, ?_, by rw [hd],
    by rw [hd], by rw [hd], ?_⟩
  · rw [hw]
    intro c hc
    simp only [List.mem_cons, List.mem_singleton, List.not_mem_nil, or_false] at hc
    rcases hc with rfl | rfl | rfl | rfl | rfl <;> rfl
  · rw [s.status_of_dry_err_none s.dry_err_none, hd]

/-- Witness of `Spyt.token_step`: the example component, its secret without a token. -/
theorem Spyt.token_step_witness :
    exampleSpyt.state = ClusterState.Running ∧
    exampleSpyt.secretNeedSync exampleSpyt.TokenSecretKey "" = true ∧
    (exampleSpyt.doSync false).status = SyncStatus.Pending ∧
    (exampleSpyt.doSync false).calls =
      [SpytCall.secretNeedSync "YT_TOKEN" "", SpytCall.secretBuild, SpytCall.randString 30,
        SpytCall.setStringData "YT_TOKEN" (RandString exampleSpyt.rand 30),
        SpytCall.secretSync] ∧
    exampleSpyt.Status = Except.ok SyncStatus.Pending :=
  have h := Spyt.token_step exampleSpyt rfl rfl
  ⟨rfl, rfl, h.1, h.2.2.1, h.2.2.2.2.2.2.2.2⟩

/-! ## Gating of the Spyt pipeline -/

/-- Claim C9.  In both passes of `Spyt.doSync`: a call on the second init job
(`initEnvironment`) is made only if the cluster is `Running`, the secret has its token
key and the first init job (`initUser`) was run in this pass and returned `Ready`; if the
cluster is not `Running` the decision is `Blocked` with a nil error and no call is made;
if `initUser` is run and its status is not `Ready`, that status and its error are
returned as they are; and if it is `Ready`, decision and error are those `initEnvironment`
returns. -/
theorem Spyt.left_to_right_gating (s : Spyt) (dry : Bool) :
    (∀ c ∈ (s.doSync dry).calls, c.job = some InitJobField.initEnvironment →
      s.state = ClusterState.Running ∧ s.secretNeedSync s.TokenSecretKey "" = false ∧
      (s.initUser.Sync dry).1 = SyncStatus.Ready ∧
      SpytCall.jobSync InitJobField.initUser dry ∈ (s.doSync dry).calls) ∧
    (s.state ≠ ClusterState.Running →
      (s.doSync dry).status = SyncStatus.Blocked ∧ (s.doSync dry).err = none ∧
      (s.doSync dry).calls = []) ∧
    (s.state = ClusterState.Running → s.secretNeedSync s.TokenSecretKey "" = false →
      (s.initUser.Sync dry).1 ≠ SyncStatus.Ready →
      (s.doSync dry).status = (s.initUser.Sync dry).1 ∧
      (s.doSync dry).err = (s.initUser.Sync dry).2 ∧
      SpytCall.jobSync InitJobField.initUser dry ∈ (s.doSync dry).calls) ∧
    (s.state = ClusterState.Running → s.secretNeedSync s.TokenSecretKey "" = false →
      (s.initUser.Sync dry).1 = SyncStatus.Ready →
      (s.doSync dry).status = (s.initEnvironment.Sync dry).1 ∧
      (s.doSync dry).err = (s.initEnvironment.Sync dry).2 ∧
      SpytCall.jobSync InitJobField.initEnvironment dry ∈ (s.doSync dry).calls) := by
  refine ⟨?_, ?_, ?_, ?_⟩
  · intro c hc hjob
    by_cases hr : s.state = ClusterState.Running
    · cases hn : s.secretNeedSync s.TokenSecretKey ""
      · by_cases hu : (s.initUser.Sync dry).1 = SyncStatus.Ready
        · refine ⟨hr, rfl, hu, ?_⟩
          cases dry <;> simp [Spyt.doSync, hr, hn, hu]
        · exfalso
          cases dry <;>
            simp [Spyt.doSync, hr, hn, hu, Spyt.createInitUserScript] at hc <;>
            (rcases hc with rfl | rfl | rfl | rfl | rfl | rfl) <;> simp [SpytCall.job] at hjob
      · exfalso
        cases dry <;> simp [Spyt.doSync, hr, hn] at hc <;>
          (rcases hc with rfl | rfl | rfl | rfl | rfl) <;> simp [SpytCall.job] at hjob
    · simp [Spyt.doSync, hr] at hc
  · intro hr
    simp [Spyt.doSync, hr]
  · intro hr hn hu
    cases dry <;> simp [Spyt.doSync, hr, hn, hu]
  · intro hr hn hu
    cases dry <;> simp [Spyt.doSync, hr, hn, hu]

/-- Witness of `Spyt.left_to_right_gating`: with the token in the secret, a first init job
that is blocked and fails hands its status and error through and the second init job is
not touched; once the first is `Ready`, the second decides; outside `Running` nothing is
called. -/
theorem Spyt.left_to_right_gating_witness :
    (spytWithToken.state = ClusterState.Running ∧
      spytWithToken.secretNeedSync spytWithToken.TokenSecretKey "" = false ∧
      (spytWithToken.initUser.Sync false).1 ≠ SyncStatus.Ready ∧
      (spytWithToken.doSync false).status = SyncStatus.Blocked ∧
      (spytWithToken.doSync false).err = some "conflict") ∧
    (spytWithUser.state = ClusterState.Running ∧
      spytWithUser.secretNeedSync spytWithUser.TokenSecretKey "" = false ∧
      (spytWithUser.initUser.Sync false).1 = SyncStatus.Ready ∧
      (spytWithUser.doSync false).status = SyncStatus.Pending ∧
      SpytCall.jobSync InitJobField.initEnvironment false ∈ (spytWithUser.doSync false).calls) ∧
    (Spyt.state { exampleSpyt with state := ClusterState.Updating } ≠ ClusterState.Running ∧
      (Spyt.doSync { exampleSpyt with state := ClusterState.Updating } false).calls = []) :=
  have h1 := (Spyt.left_to_right_gating spytWithToken false).2.2.1 rfl rfl (by decide)
  have h2 := (Spyt.left_to_right_gating spytWithUser false).2.2.2 rfl rfl rfl
  have h3 := (Spyt.left_to_right_gating { exampleSpyt with state := ClusterState.Updating }
    false).2.1 (by decide)
  ⟨⟨rfl, rfl, by decide, h1.1, h1.2.1⟩, ⟨rfl, rfl, rfl, h2.1, h2.2.2⟩, ⟨by decide, h3.2.2⟩⟩

/-! ## The dry pass does not fail -/

/-- Claim C10.  The dry pass of an exec node returns a nil error in every observed state
and calls neither `server.BuildStatefulSet` nor `server.Sync`, so `Status` returns the
decision of the dry pass and does not panic; the dry pass of a Spyt component returns a
nil error as well, so `Spyt.Status` returns its decision and does not panic. -/
theorem dry_pass_never_fails (n : execNode) (s : Spyt) :
    (n.doSync true).err = none ∧
    ExecCall.serverBuildStatefulSet ∉ (n.doSync true).calls ∧
    ExecCall.serverSync ∉ (n.doSync true).calls ∧
    n.Status = Except.ok (n.doSync true).status ∧
    (s.doSync true).err = none ∧
    s.Status = Except.ok (s.doSync true).status := by
  refine ⟨n.doSync_dry_err, ?_, ?_, n.Status_of_err_none n.doSync_dry_err, s.dry_err_none,
    s.status_of_dry_err_none s.dry_err_none⟩
  · rcases n.gates_cases with h | h | ⟨h1, h2⟩
    · rw [n.doSync_selfUpdate true h]; simp
    · rw [(n.doSync_podsRemoval true h).2.2]; split_ifs <;> simp
    · rw [(n.doSync_no_gate true h1 h2).2, List.mem_append]
      rintro (hc | hc)
      · have := n.gateCalls_mem _ hc
        simp at this
      · have := n.reconcileCalls_dry_mem _ hc
        simp at this
  · intro hc
    have := (n.serverSync_mem_iff true).1 hc
    simp at this

end YtOperator
